import Mathlib

/-!
Shallow embedding of the document upload and processing-status tracking flow
of the frontend client (src/src/pages/DocumentUpload/DocumentUpload.tsx, the
component routed by the application).  Component-local React state becomes an
explicit state record; the WebSocket message handler, the upload handler and
the drop handler become state-transition functions that also return the
user-visible effects they produce (toast notifications and scheduled
navigations).
-/

namespace DocumentUpload

/-- The `status` field of a processing-status message: one of processing,
analyzing, enhancing, completed, failed. -/
inductive Status where
  | processing
  | analyzing
  | enhancing
  | completed
  | failed
deriving DecidableEq, Repr

/-- The `ProcessingStatus` payload received from the backend over the
WebSocket: `\x7b document_id: string; status: Status; progress: number \x7d`. -/
structure ProcessingStatus where
  document_id : String
  status : Status
  progress : Nat
deriving DecidableEq, Repr

/-- A selected file (`FileWithPath`): the component only reads its name;
the MIME type is what the dropzone allow-list filters on. -/
structure SelectedFile where
  name : String
  mime : String
deriving DecidableEq, Repr

/-- The local React state of the component:
`file`, `uploadProgress`, `isUploading`, `processingStatus`. -/
structure ComponentState where
  file : Option SelectedFile
  uploadProgress : Nat
  isUploading : Bool
  processingStatus : Option ProcessingStatus
deriving DecidableEq, Repr

/-- The initial state of the component: `useState(null)`, `useState(0)`,
`useState(false)`, `useState(null)`. -/
def initialState : ComponentState :=
  { file := none, uploadProgress := 0, isUploading := false, processingStatus := none }

/-- A toast notification: `toast.success` or `toast.error` with its message. -/
inductive Notification where
  | success (msg : String)
  | error (msg : String)
deriving DecidableEq, Repr

/-- A scheduled navigation: `setTimeout(() => navigate(target), delayMs)`. -/
structure Navigation where
  target : String
  delayMs : Nat
deriving DecidableEq, Repr

/-- The user-visible effects of one handler run: the toasts it fired and the
navigations it scheduled, in order. -/
structure Effects where
  notifications : List Notification
  navigations : List Navigation
deriving DecidableEq, Repr

/-- No effects. -/
def noEffects : Effects := { notifications := [], navigations := [] }

/-- Concatenation of effects of consecutive handler runs. -/
def Effects.append (a b : Effects) : Effects :=
  { notifications := a.notifications ++ b.notifications,
    navigations := a.navigations ++ b.navigations }

/-- JavaScript string interpolation of `file?.name`: `undefined` when the
file is `null`. -/
def optFileName : Option SelectedFile → String
  | some f => f.name
  | none => "undefined"

/-- The `ws.onmessage` handler.  Guard: `if (processingStatus &&
message.document_id === processingStatus.document_id)`.  On a match the
tracked status is replaced by the message; a `completed` message fires a
success toast and schedules navigation to the document detail view after
1000ms; a `failed` message fires an error toast; any other status only
replaces the tracked status. -/
def onStatusEvent (st : ComponentState) (message : ProcessingStatus) :
    ComponentState × Effects :=
  match st.processingStatus with
  | some tracked =>
    if message.document_id = tracked.document_id then
      let st' := { st with processingStatus := some message }
      if message.status = Status.completed then
        (st',
          { notifications :=
              [Notification.success
                ("Processing complete for " ++ optFileName st.file ++ "!")],
            navigations := [{ target := "/documents/" ++ message.document_id,
                              delayMs := 1000 }] })
      else if message.status = Status.failed then
        (st',
          { notifications :=
              [Notification.error
                ("Processing failed for " ++ optFileName st.file ++ ".")],
            navigations := [] })
      else
        (st', noEffects)
    else
      (st, noEffects)
  | none => (st, noEffects)

/-- Deliver a list of status events in order, accumulating effects. -/
def runEvents (st : ComponentState) (events : List ProcessingStatus) :
    ComponentState × Effects :=
  match events with
  | [] => (st, noEffects)
  | e :: rest =>
    let (st1, eff1) := onStatusEvent st e
    let (st2, eff2) := runEvents st1 rest
    (st2, eff1.append eff2)

/-- An axios upload progress event: `\x7b loaded, total \x7d`; `total := 0`
models an absent/zero (falsy) total, which the handler skips. -/
structure ProgressEvent where
  loaded : Nat
  total : Nat
deriving DecidableEq, Repr

/-- `Math.round((progressEvent.loaded * 100) / progressEvent.total)` on
non-negative inputs: round-half-up of `loaded * 100 / total`. -/
def percentCompleted (e : ProgressEvent) : Nat :=
  (e.loaded * 100 * 2 + e.total) / (2 * e.total)

/-- The `onUploadProgress` callback of the transfer: guarded by
`if (progressEvent.total)`, it overwrites `uploadProgress` with the rounded
percentage. -/
def onUploadProgress (st : ComponentState) (e : ProgressEvent) : ComponentState :=
  if e.total ≠ 0 then { st with uploadProgress := percentCompleted e } else st

/-- Outcome of the `axios.post` to the Upload Endpoint: resolved with a
response body containing `document_id`, or rejected (network error or
non-2xx response). -/
inductive UploadResult where
  | success (document_id : String)
  | failure
deriving DecidableEq, Repr

/-- The `handleUpload` function.  `if (!file) return;` — otherwise it sets
`isUploading` to true, resets `uploadProgress` to 0 and clears
`processingStatus`, runs the transfer (whose progress callbacks are the
`progressEvents` list), then on success fires a success toast and seeds
`\x7b document_id, status: processing, progress: 0 \x7d`, and on failure
fires an error toast; `finally` clears `isUploading`. -/
def handleUpload (st : ComponentState) (progressEvents : List ProgressEvent)
    (result : UploadResult) : ComponentState × Effects :=
  match st.file with
  | none => (st, noEffects)
  | some _ =>
    let st1 : ComponentState :=
      { st with isUploading := true, uploadProgress := 0, processingStatus := none }
    let st2 := progressEvents.foldl onUploadProgress st1
    match result with
    | UploadResult.success document_id =>
      ({ st2 with
          processingStatus :=
            some { document_id := document_id, status := Status.processing,
                   progress := 0 },
          isUploading := false },
        { notifications :=
            [Notification.success "File uploaded! Processing has started..."],
          navigations := [] })
    | UploadResult.failure =>
      ({ st2 with isUploading := false },
        { notifications :=
            [Notification.error "Failed to upload file. Is the server running?"],
          navigations := [] })

/-- The `onDrop` callback: `if (acceptedFiles.length > 0)` it takes the first
accepted file, clears the tracked processing status and resets the upload
progress. -/
def onDrop (st : ComponentState) (acceptedFiles : List SelectedFile) :
    ComponentState :=
  match acceptedFiles with
  | [] => st
  | f :: _ =>
    { st with file := some f, processingStatus := none, uploadProgress := 0 }

/-- The dropzone allow-list, which maps the application/pdf MIME type to the
.pdf extension: a candidate is accepted iff its MIME type is
`application/pdf`. -/
def acceptsFile (f : SelectedFile) : Bool := f.mime == "application/pdf"

/-- A single-file selection gesture as the dropzone (configured with
`multiple: false` and the PDF allow-list) delivers it to `onDrop`: the
candidate reaches `onDrop` iff it passes the allow-list. -/
def selectFile (st : ComponentState) (candidate : SelectedFile) : ComponentState :=
  onDrop st (if acceptsFile candidate then [candidate] else [])

/-- The disabled condition of the upload button: no file is selected, or an
upload is in flight, or a processing status is tracked whose status is
neither completed nor failed. -/
def uploadDisabled (st : ComponentState) : Bool :=
  st.file.isNone || st.isUploading ||
    (match st.processingStatus with
     | some ps =>
        decide (ps.status ≠ Status.completed) && decide (ps.status ≠ Status.failed)
     | none => false)

/-- The progress callback only writes `uploadProgress`; the other three
state fields are untouched. -/
theorem onUploadProgress_preserves (st : ComponentState) (e : ProgressEvent) :
    (onUploadProgress st e).file = st.file ∧
    (onUploadProgress st e).processingStatus = st.processingStatus ∧
    (onUploadProgress st e).isUploading = st.isUploading := by
  unfold onUploadProgress
  split <;> exact ⟨rfl, rfl, rfl⟩

/-- Folding any list of progress callbacks only writes `uploadProgress`. -/
theorem foldl_onUploadProgress_preserves (es : List ProgressEvent)
    (st : ComponentState) :
    ((es.foldl onUploadProgress st).file = st.file ∧
     (es.foldl onUploadProgress st).processingStatus = st.processingStatus ∧
     (es.foldl onUploadProgress st).isUploading = st.isUploading) := by
  induction es generalizing st with
  | nil => exact ⟨rfl, rfl, rfl⟩
  | cons e rest ih =>
    have h1 := onUploadProgress_preserves st e
    have h2 := ih (onUploadProgress st e)
    simp only [List.foldl_cons]
    exact ⟨h2.1.trans h1.1, h2.2.1.trans h1.2.1, h2.2.2.trans h1.2.2⟩

/-- C10: while no processing status is tracked, every inbound status event is
ignored: the state is unchanged and no notification or navigation occurs. -/
theorem claim_C10_untracked_ignores_all_events (st : ComponentState)
    (ev : ProcessingStatus) (h : st.processingStatus = none) :
    onStatusEvent st ev = (st, noEffects) := by
  unfold onStatusEvent
  rw [h]

/-- C10 witness: the initial state ignores a completed event. -/
theorem claim_C10_witness :
    onStatusEvent initialState
        { document_id := "doc-1", status := Status.completed, progress := 100 } =
      (initialState, noEffects) :=
  claim_C10_untracked_ignores_all_events initialState
    { document_id := "doc-1", status := Status.completed, progress := 100 } rfl

/-- C1: a status event whose document identifier differs from the tracked one
leaves the state unchanged with no notification and no navigation; and in the
concrete interleaved stream (D, processing, 10), (Dx, completed, 100),
(D, completed, 100) delivered while D is tracked, the final tracked status is
completed/100 for D and the Dx event is a no-op at its position. -/
theorem claim_C1_nonmatching_event_ignored (st : ComponentState)
    (tracked ev : ProcessingStatus)
    (h1 : st.processingStatus = some tracked)
    (h2 : ev.document_id ≠ tracked.document_id) :
    onStatusEvent st ev = (st, noEffects) ∧
    ((runEvents
        { file := some { name := "invoice.pdf", mime := "application/pdf" },
          uploadProgress := 100, isUploading := false,
          processingStatus :=
            some { document_id := "D", status := Status.processing, progress := 0 } }
        [{ document_id := "D", status := Status.processing, progress := 10 },
         { document_id := "Dx", status := Status.completed, progress := 100 },
         { document_id := "D", status := Status.completed, progress := 100 }]).1.processingStatus =
      some { document_id := "D", status := Status.completed, progress := 100 } ∧
     onStatusEvent
        { file := some { name := "invoice.pdf", mime := "application/pdf" },
          uploadProgress := 100, isUploading := false,
          processingStatus :=
            some { document_id := "D", status := Status.processing, progress := 10 } }
        { document_id := "Dx", status := Status.completed, progress := 100 } =
      ({ file := some { name := "invoice.pdf", mime := "application/pdf" },
         uploadProgress := 100, isUploading := false,
         processingStatus :=
           some { document_id := "D", status := Status.processing, progress := 10 } },
       noEffects)) := by
  constructor
  · simp only [onStatusEvent, h1]
    rw [if_neg h2]
  · exact ⟨by decide, by decide⟩

/-- C1 witness: a completed event for Dx is ignored while D is tracked. -/
theorem claim_C1_witness :
    onStatusEvent
        { file := none, uploadProgress := 0, isUploading := false,
          processingStatus :=
            some { document_id := "D", status := Status.processing, progress := 0 } }
        { document_id := "Dx", status := Status.completed, progress := 100 } =
      ({ file := none, uploadProgress := 0, isUploading := false,
         processingStatus :=
           some { document_id := "D", status := Status.processing, progress := 0 } },
       noEffects) :=
  (claim_C1_nonmatching_event_ignored _
    { document_id := "D", status := Status.processing, progress := 0 }
    { document_id := "Dx", status := Status.completed, progress := 100 }
    rfl (by decide)).1

/-- C2: evaluating the handler at the failing input: while D is tracked,
delivering the same terminal completed event for D twice schedules TWO
navigations (and fires two success toasts) — the claimed exactly-once
navigation guard is absent from the handler, whose replacement logic re-runs
the completed branch on the replayed event. -/
theorem claim_C2_replayed_completed_navigates_twice :
    (runEvents
        { file := some { name := "invoice.pdf", mime := "application/pdf" },
          uploadProgress := 100, isUploading := false,
          processingStatus :=
            some { document_id := "D", status := Status.processing, progress := 0 } }
        [{ document_id := "D", status := Status.completed, progress := 100 },
         { document_id := "D", status := Status.completed, progress := 100 }]).2 =
      { notifications :=
          [Notification.success "Processing complete for invoice.pdf!",
           Notification.success "Processing complete for invoice.pdf!"],
        navigations :=
          [{ target := "/documents/D", delayMs := 1000 },
           { target := "/documents/D", delayMs := 1000 }] } := by
  decide

/-- C6: a failed status event never schedules a navigation, from any state;
when it matches the tracked identifier it fires a failure toast and leaves
the tracked status visible as that failed event. -/
theorem claim_C6_failed_never_navigates (st : ComponentState)
    (ev : ProcessingStatus) (h : ev.status = Status.failed) :
    (onStatusEvent st ev).2.navigations = [] ∧
    (∀ tracked, st.processingStatus = some tracked →
      ev.document_id = tracked.document_id →
      (onStatusEvent st ev).1.processingStatus = some ev ∧
      (onStatusEvent st ev).2.notifications =
        [Notification.error ("Processing failed for " ++ optFileName st.file ++ ".")]) := by
  obtain ⟨fl, up, iu, ps⟩ := st
  cases ps with
  | none =>
    refine ⟨rfl, ?_⟩
    intro tracked htr
    simp at htr
  | some tracked =>
    by_cases hid : ev.document_id = tracked.document_id
    · refine ⟨?_, ?_⟩
      · simp [onStatusEvent, hid, h]
      · intro tracked2 htr2 hid2
        have he : tracked = tracked2 := by injection htr2
        subst he
        exact ⟨by simp [onStatusEvent, hid, h], by simp [onStatusEvent, hid, h]⟩
    · refine ⟨?_, ?_⟩
      · simp [onStatusEvent, hid, noEffects]
      · intro tracked2 htr2 hid2
        have he : tracked = tracked2 := by injection htr2
        subst he
        exact absurd hid2 hid

/-- C6 witness: a matching failed event fires the failure toast, keeps the
failed status tracked, and schedules no navigation. -/
theorem claim_C6_witness :
    (onStatusEvent
        { file := some { name := "invoice.pdf", mime := "application/pdf" },
          uploadProgress := 100, isUploading := false,
          processingStatus :=
            some { document_id := "D", status := Status.analyzing, progress := 50 } }
        { document_id := "D", status := Status.failed, progress := 60 }).2.navigations =
      [] ∧
    (onStatusEvent
        { file := some { name := "invoice.pdf", mime := "application/pdf" },
          uploadProgress := 100, isUploading := false,
          processingStatus :=
            some { document_id := "D", status := Status.analyzing, progress := 50 } }
        { document_id := "D", status := Status.failed, progress := 60 }).1.processingStatus =
      some { document_id := "D", status := Status.failed, progress := 60 } := by
  have h := claim_C6_failed_never_navigates
    { file := some { name := "invoice.pdf", mime := "application/pdf" },
      uploadProgress := 100, isUploading := false,
      processingStatus :=
        some { document_id := "D", status := Status.analyzing, progress := 50 } }
    { document_id := "D", status := Status.failed, progress := 60 } rfl
  exact ⟨h.1,
    (h.2 { document_id := "D", status := Status.analyzing, progress := 50 } rfl rfl).1⟩

/-- C7: a completed status event matching the tracked identifier replaces the
tracked status, fires a success toast, and schedules navigation to
/documents/ followed by the document identifier after a 1000ms delay. -/
theorem claim_C7_completed_navigates (st : ComponentState)
    (tracked ev : ProcessingStatus)
    (h1 : st.processingStatus = some tracked)
    (h2 : ev.document_id = tracked.document_id)
    (h3 : ev.status = Status.completed) :
    onStatusEvent st ev =
      ({ st with processingStatus := some ev },
       { notifications :=
           [Notification.success
             ("Processing complete for " ++ optFileName st.file ++ "!")],
         navigations := [{ target := "/documents/" ++ ev.document_id,
                           delayMs := 1000 }] }) := by
  simp only [onStatusEvent, h1]
  rw [if_pos h2, if_pos h3]

/-- C7 witness: concrete completed event for the tracked identifier doc-42. -/
theorem claim_C7_witness :
    onStatusEvent
        { file := some { name := "invoice.pdf", mime := "application/pdf" },
          uploadProgress := 100, isUploading := false,
          processingStatus :=
            some { document_id := "doc-42", status := Status.analyzing, progress := 50 } }
        { document_id := "doc-42", status := Status.completed, progress := 100 } =
      ({ file := some { name := "invoice.pdf", mime := "application/pdf" },
         uploadProgress := 100, isUploading := false,
         processingStatus :=
           some { document_id := "doc-42", status := Status.completed, progress := 100 } },
       { notifications := [Notification.success "Processing complete for invoice.pdf!"],
         navigations := [{ target := "/documents/doc-42", delayMs := 1000 }] }) :=
  claim_C7_completed_navigates _
    { document_id := "doc-42", status := Status.analyzing, progress := 50 }
    { document_id := "doc-42", status := Status.completed, progress := 100 }
    rfl rfl rfl

/-- C3: when the upload endpoint responds successfully with identifier d,
the state immediately after the handler run tracks the seeded status
(document_id d, processing, progress 0), before any channel event arrives. -/
theorem claim_C3_success_seeds_processing_status (st : ComponentState)
    (f : SelectedFile) (progressEvents : List ProgressEvent) (d : String)
    (h : st.file = some f) :
    (handleUpload st progressEvents (UploadResult.success d)).1.processingStatus =
      some { document_id := d, status := Status.processing, progress := 0 } := by
  unfold handleUpload
  rw [h]

/-- C3 witness: concrete successful run seeds (doc-42, processing, 0). -/
theorem claim_C3_witness :
    (handleUpload
        { initialState with
            file := some { name := "invoice.pdf", mime := "application/pdf" } }
        [{ loaded := 50, total := 100 }, { loaded := 100, total := 100 }]
        (UploadResult.success "doc-42")).1.processingStatus =
      some { document_id := "doc-42", status := Status.processing, progress := 0 } :=
  claim_C3_success_seeds_processing_status _
    { name := "invoice.pdf", mime := "application/pdf" }
    [{ loaded := 50, total := 100 }, { loaded := 100, total := 100 }] "doc-42" rfl

/-- C4: with no selected file, the upload handler returns before touching any
state and produces no effects, whatever the transfer would have done. -/
theorem claim_C4_no_file_is_noop (st : ComponentState)
    (progressEvents : List ProgressEvent) (result : UploadResult)
    (h : st.file = none) :
    handleUpload st progressEvents result = (st, noEffects) := by
  unfold handleUpload
  rw [h]

/-- C4 witness: the initial state (no file) is left untouched by an upload
attempt. -/
theorem claim_C4_witness :
    handleUpload initialState [{ loaded := 10, total := 100 }]
        (UploadResult.success "doc-1") =
      (initialState, noEffects) :=
  claim_C4_no_file_is_noop initialState [{ loaded := 10, total := 100 }]
    (UploadResult.success "doc-1") rfl

/-- C5: when the upload endpoint fails, a failure toast is the only effect,
no processing status is seeded (the tracked status ends absent), and the
selected file is unchanged, so the same file can be retried. -/
theorem claim_C5_failure_reports_and_keeps_file (st : ComponentState)
    (f : SelectedFile) (progressEvents : List ProgressEvent)
    (h : st.file = some f) :
    (handleUpload st progressEvents UploadResult.failure).1.processingStatus =
      none ∧
    (handleUpload st progressEvents UploadResult.failure).1.file = st.file ∧
    (handleUpload st progressEvents UploadResult.failure).2 =
      { notifications :=
          [Notification.error "Failed to upload file. Is the server running?"],
        navigations := [] } := by
  obtain ⟨fl, up, iu, ps⟩ := st
  simp only [ComponentState.file] at h
  subst h
  have hp := foldl_onUploadProgress_preserves progressEvents
    { file := some f, uploadProgress := 0, isUploading := true,
      processingStatus := none }
  simp only [handleUpload]
  exact ⟨hp.2.1, hp.1, trivial⟩

/-- C5 witness: a concrete failing run keeps the file and tracks nothing. -/
theorem claim_C5_witness :
    (handleUpload
        { initialState with
            file := some { name := "invoice.pdf", mime := "application/pdf" } }
        [{ loaded := 10, total := 100 }] UploadResult.failure).1.processingStatus =
      none ∧
    (handleUpload
        { initialState with
            file := some { name := "invoice.pdf", mime := "application/pdf" } }
        [{ loaded := 10, total := 100 }] UploadResult.failure).1.file =
      some { name := "invoice.pdf", mime := "application/pdf" } :=
  have h := claim_C5_failure_reports_and_keeps_file
    { initialState with
        file := some { name := "invoice.pdf", mime := "application/pdf" } }
    { name := "invoice.pdf", mime := "application/pdf" }
    [{ loaded := 10, total := 100 }] rfl
  ⟨h.1, h.2.1⟩

/-- C8: the upload button is disabled while a transfer is in flight, and
disabled while a tracked processing status exists in a non-terminal state;
a tracked terminal status (completed or failed) together with a selected
file and no in-flight transfer leaves the button enabled. -/
theorem claim_C8_single_active_upload (st : ComponentState) :
    (st.isUploading = true → uploadDisabled st = true) ∧
    (∀ ps, st.processingStatus = some ps → ps.status ≠ Status.completed →
      ps.status ≠ Status.failed → uploadDisabled st = true) ∧
    (∀ ps, st.processingStatus = some ps →
      (ps.status = Status.completed ∨ ps.status = Status.failed) →
      st.file.isSome = true → st.isUploading = false →
      uploadDisabled st = false) := by
  refine ⟨?_, ?_, ?_⟩
  · intro hu
    simp [uploadDisabled, hu]
  · intro ps hps hc hf
    simp [uploadDisabled, hps, hc, hf]
  · intro ps hps hterm hfile hu
    rcases hterm with hterm | hterm <;>
      simp [uploadDisabled, hps, hterm, hu, Option.isNone_iff_eq_none,
        Option.isSome_iff_exists] at * <;>
      simp [hfile]

/-- C8 witness: an in-flight transfer disables the button; a tracked
analyzing status disables it; a tracked failed status with a selected file
and no transfer enables it. -/
theorem claim_C8_witness :
    uploadDisabled
        { file := some { name := "a.pdf", mime := "application/pdf" },
          uploadProgress := 10, isUploading := true, processingStatus := none } =
      true ∧
    uploadDisabled
        { file := some { name := "a.pdf", mime := "application/pdf" },
          uploadProgress := 100, isUploading := false,
          processingStatus :=
            some { document_id := "D", status := Status.analyzing, progress := 50 } } =
      true ∧
    uploadDisabled
        { file := some { name := "a.pdf", mime := "application/pdf" },
          uploadProgress := 100, isUploading := false,
          processingStatus :=
            some { document_id := "D", status := Status.failed, progress := 50 } } =
      false :=
  ⟨(claim_C8_single_active_upload _).1 rfl,
   (claim_C8_single_active_upload _).2.1
     { document_id := "D", status := Status.analyzing, progress := 50 } rfl
     (by decide) (by decide),
   (claim_C8_single_active_upload _).2.2
     { document_id := "D", status := Status.failed, progress := 50 } rfl
     (Or.inr rfl) rfl rfl⟩

/-- C9: selecting a valid candidate of the allow-listed MIME type replaces
the selected file with exactly that candidate, clears any tracked processing
status, and resets the upload progress to 0; all other state is unchanged. -/
theorem claim_C9_valid_selection_resets (st : ComponentState)
    (candidate : SelectedFile) (h : acceptsFile candidate = true) :
    selectFile st candidate =
      { st with file := some candidate, processingStatus := none,
                uploadProgress := 0 } := by
  unfold selectFile
  rw [if_pos h]
  rfl

/-- C9 witness: selecting a PDF over a state tracking a prior document
replaces the file, clears the status and zeroes the progress. -/
theorem claim_C9_witness :
    selectFile
        { file := some { name := "old.pdf", mime := "application/pdf" },
          uploadProgress := 100, isUploading := false,
          processingStatus :=
            some { document_id := "D", status := Status.completed, progress := 100 } }
        { name := "new.pdf", mime := "application/pdf" } =
      { file := some { name := "new.pdf", mime := "application/pdf" },
        uploadProgress := 0, isUploading := false, processingStatus := none } :=
  claim_C9_valid_selection_resets _ { name := "new.pdf", mime := "application/pdf" }
    rfl

end DocumentUpload
